import Mathlib

/-!
Verification of the thermodynamics SDK core (`thermodynamics_sdk/core.py`).

The embedding models Python runtime values as an inductive type `PyVal`,
Python exceptions as `PyError`, and numbers as exact rationals `ℚ` (the
spec's properties are stated over the reals, and every arithmetic operation
of the SDK is a single addition or subtraction).  Fallible operations return
`Except PyError α`; mutation is explicit state passing.  The file system is
a partial map from path strings to file data; the Python `json` module is
modelled at the document level: a file either holds a parsed JSON document
or text that fails to decode, carrying the decoder's diagnostic.

Where a property depends on rounding, a second, clearly named model of the
calculator arithmetic (`...f64`, built on `roundF`) captures the source's
IEEE-754 binary64 semantics: round to nearest, ties to even, normal range.
-/

/-- The state of a `ThermodynamicSystem` instance: the three private fields
`_internal_energy`, `_heat_added`, `_work_done`.  In the source every stored
value is the result of `float(value)` inside `_validate_float`, so the
fields are numbers; numbers are modelled as exact rationals. -/
structure ThermodynamicSystem where
  _internal_energy : ℚ
  _heat_added : ℚ
  _work_done : ℚ
deriving DecidableEq, Repr

/-- A Python runtime value, as far as the SDK can observe one: the numeric
types (`int`, `bool` — a subtype of `int` in Python — and `float`), the
non-numeric built-ins used by the tests (`str`, `list`, `dict`, `None`),
and `ThermodynamicSystem` instances themselves. -/
inductive PyVal where
  | int (n : Int)
  | bool (b : Bool)
  | float (q : ℚ)
  | str (s : String)
  | list (xs : List PyVal)
  | dict (kvs : List (String × PyVal))
  | none
  | system (s : ThermodynamicSystem)

/-- Python's `type(value).__name__` for each modelled value. -/
def PyVal.typeName : PyVal → String
  | .int _ => "int"
  | .bool _ => "bool"
  | .float _ => "float"
  | .str _ => "str"
  | .list _ => "list"
  | .dict _ => "dict"
  | .none => "NoneType"
  | .system _ => "ThermodynamicSystem"

/-- The check `isinstance(value, (int, float))`.  Python's `bool` is a subtype of
`int`, so booleans pass this check. -/
def PyVal.isNumeric : PyVal → Bool
  | .int _ => true
  | .bool _ => true
  | .float _ => true
  | _ => false

/-- Python's `float(value)` on a value that passed the numeric check
(`float(True) == 1.0`, `float(False) == 0.0`). -/
def PyVal.toQ : PyVal → ℚ
  | .int n => (n : ℚ)
  | .bool b => if b then 1 else 0
  | .float q => q
  | _ => 0

/-- Python exceptions observed by the SDK.  `valueError` realises the
spec's `MissingKeyKind`, `typeError` its `TypeKind`, `fileNotFoundError`
its `NotFoundKind`, `jsonDecodeError` its `ParseErrorKind` (message,
document text, byte offset) and `ioError` its `IOErrorKind`. -/
inductive PyError where
  | typeError (msg : String)
  | valueError (msg : String)
  | fileNotFoundError (msg : String)
  | jsonDecodeError (msg : String) (doc : String) (pos : Nat)
  | ioError (msg : String)
deriving DecidableEq, Repr

/-- The message of the `TypeError` raised by `_validate_float` and
`_validate_calculation_inputs`:
`f"{name} must be a float or an integer, but got {type(value).__name__}."` -/
def validationMsg (name : String) (value : PyVal) : String :=
  name ++ " must be a float or an integer, but got " ++ value.typeName ++ "."

/-- Model of `ThermodynamicSystem._validate_float`: raises `TypeError` unless the
value is an `int` or `float` instance, and returns `float(value)`. -/
def ThermodynamicSystem._validate_float (name : String) (value : PyVal) :
    Except PyError ℚ :=
  if ¬ value.isNumeric then
    .error (.typeError (validationMsg name value))
  else
    .ok value.toQ

/-- Model of `ThermodynamicSystem.__init__`: validates the three arguments in the
fixed order `internal_energy`, `heat_added`, `work_done` and stores the
coerced floats. -/
def ThermodynamicSystem.init (internal_energy heat_added work_done : PyVal) :
    Except PyError ThermodynamicSystem := do
  let ie ← ThermodynamicSystem._validate_float "internal_energy" internal_energy
  let ha ← ThermodynamicSystem._validate_float "heat_added" heat_added
  let wd ← ThermodynamicSystem._validate_float "work_done" work_done
  pure ⟨ie, ha, wd⟩

/-- The `internal_energy` property getter: the stored value is a `float`. -/
def ThermodynamicSystem.internal_energy (s : ThermodynamicSystem) : PyVal :=
  .float s._internal_energy

/-- The `heat_added` property getter. -/
def ThermodynamicSystem.heat_added (s : ThermodynamicSystem) : PyVal :=
  .float s._heat_added

/-- The `work_done` property getter. -/
def ThermodynamicSystem.work_done (s : ThermodynamicSystem) : PyVal :=
  .float s._work_done

/-- The `internal_energy` property setter: `self._internal_energy =
self._validate_float("internal_energy", value)`.  The right-hand side is
evaluated first, so when validation raises, the stored field is not
assigned: the pair returns the unchanged state together with the error. -/
def ThermodynamicSystem.set_internal_energy (s : ThermodynamicSystem)
    (value : PyVal) : ThermodynamicSystem × Option PyError :=
  match ThermodynamicSystem._validate_float "internal_energy" value with
  | .ok q => ({ s with _internal_energy := q }, Option.none)
  | .error e => (s, Option.some e)

/-- The `heat_added` property setter. -/
def ThermodynamicSystem.set_heat_added (s : ThermodynamicSystem)
    (value : PyVal) : ThermodynamicSystem × Option PyError :=
  match ThermodynamicSystem._validate_float "heat_added" value with
  | .ok q => ({ s with _heat_added := q }, Option.none)
  | .error e => (s, Option.some e)

/-- The `work_done` property setter. -/
def ThermodynamicSystem.set_work_done (s : ThermodynamicSystem)
    (value : PyVal) : ThermodynamicSystem × Option PyError :=
  match ThermodynamicSystem._validate_float "work_done" value with
  | .ok q => ({ s with _work_done := q }, Option.none)
  | .error e => (s, Option.some e)

/-- Model of `ThermodynamicSystem.to_dict`: a mapping with exactly the three keys,
read through the property getters. -/
def ThermodynamicSystem.to_dict (s : ThermodynamicSystem) :
    List (String × PyVal) :=
  [("internal_energy", s.internal_energy),
   ("heat_added", s.heat_added),
   ("work_done", s.work_done)]

/-- One iteration of the validation loop in `from_dict`: `key not in data`
raises `ValueError`, a present non-numeric value raises `TypeError`. -/
def ThermodynamicSystem.checkKey (data : List (String × PyVal))
    (key : String) : Option PyError :=
  match List.lookup key data with
  | Option.none =>
      Option.some (.valueError
        ("Missing key '" ++ key ++ "' in system data for deserialization."))
  | Option.some v =>
      if ¬ v.isNumeric then
        Option.some (.typeError
          ("Value for '" ++ key ++ "' must be a float, but got "
            ++ v.typeName ++ "."))
      else
        Option.none

/-- The read `data[key]` after the presence check has succeeded. -/
def ThermodynamicSystem.getKey (data : List (String × PyVal))
    (key : String) : PyVal :=
  (List.lookup key data).getD .none

/-- Model of `ThermodynamicSystem.from_dict`: checks the keys `internal_energy`,
`heat_added`, `work_done` in that fixed order — first absence raises
`ValueError`, first present non-numeric value raises `TypeError` — and only
then constructs the instance via `cls(...)`. -/
def ThermodynamicSystem.from_dict (data : List (String × PyVal)) :
    Except PyError ThermodynamicSystem :=
  match ThermodynamicSystem.checkKey data "internal_energy" with
  | Option.some e => .error e
  | Option.none =>
    match ThermodynamicSystem.checkKey data "heat_added" with
    | Option.some e => .error e
    | Option.none =>
      match ThermodynamicSystem.checkKey data "work_done" with
      | Option.some e => .error e
      | Option.none =>
        ThermodynamicSystem.init
          (ThermodynamicSystem.getKey data "internal_energy")
          (ThermodynamicSystem.getKey data "heat_added")
          (ThermodynamicSystem.getKey data "work_done")

/-- Model of `ThermodynamicSystem.__eq__`: `False` for any non-instance comparand
(the method is total, it never raises), and otherwise exact equality of the
three fields read through the property getters. -/
def ThermodynamicSystem.eq (s : ThermodynamicSystem) (other : PyVal) : Bool :=
  match other with
  | .system o =>
      decide (s._internal_energy = o._internal_energy
        ∧ s._heat_added = o._heat_added
        ∧ s._work_done = o._work_done)
  | _ => false

/-- One iteration of the loop in
`FirstLawCalculator._validate_calculation_inputs`: an argument left at its
default `None` — indistinguishable in Python from an explicit `None` — is
skipped, any other non-numeric value raises `TypeError`. -/
def checkCalcInput (name : String) (value : PyVal) : Option PyError :=
  match value with
  | .none => Option.none
  | v =>
      if ¬ v.isNumeric then
        Option.some (.typeError (validationMsg name v))
      else
        Option.none

/-- Model of `FirstLawCalculator._validate_calculation_inputs`: checks the arguments
in the fixed order `delta_u`, `heat_added`, `work_done`. -/
def FirstLawCalculator._validate_calculation_inputs
    (delta_u heat_added work_done : PyVal) : Option PyError :=
  match checkCalcInput "delta_u" delta_u with
  | Option.some e => Option.some e
  | Option.none =>
    match checkCalcInput "heat_added" heat_added with
    | Option.some e => Option.some e
    | Option.none => checkCalcInput "work_done" work_done

/-- Python `a + b` on two values: exact numeric addition when both are
numbers, otherwise an unhandled `TypeError` (reachable in the calculator
only by passing `None` explicitly, which the validator skips). -/
def pyAdd (a b : PyVal) : Except PyError ℚ :=
  if a.isNumeric ∧ b.isNumeric then
    .ok (a.toQ + b.toQ)
  else
    .error (.typeError ("unsupported operand type(s) for +: '"
      ++ a.typeName ++ "' and '" ++ b.typeName ++ "'"))

/-- Python `a - b` on two values. -/
def pySub (a b : PyVal) : Except PyError ℚ :=
  if a.isNumeric ∧ b.isNumeric then
    .ok (a.toQ - b.toQ)
  else
    .error (.typeError ("unsupported operand type(s) for -: '"
      ++ a.typeName ++ "' and '" ++ b.typeName ++ "'"))

/-- Model of `FirstLawCalculator.calculate_delta_u`: rejects non-instances, then
validates `heat_added` and `work_done` read from the system's properties,
then returns `system.heat_added - system.work_done`. -/
def FirstLawCalculator.calculate_delta_u (system : PyVal) :
    Except PyError ℚ :=
  match system with
  | .system s =>
    match FirstLawCalculator._validate_calculation_inputs
        .none s.heat_added s.work_done with
    | Option.some e => .error e
    | Option.none => pySub s.heat_added s.work_done
  | _ => .error (.typeError "Input must be an instance of ThermodynamicSystem.")

/-- Model of `FirstLawCalculator.calculate_heat_added`: validates `delta_u` and
`work_done`, then returns `delta_u + work_done`. -/
def FirstLawCalculator.calculate_heat_added (delta_u work_done : PyVal) :
    Except PyError ℚ :=
  match FirstLawCalculator._validate_calculation_inputs
      delta_u .none work_done with
  | Option.some e => .error e
  | Option.none => pyAdd delta_u work_done

/-- Model of `FirstLawCalculator.calculate_work_done`: validates `delta_u` and
`heat_added`, then returns `heat_added - delta_u`. -/
def FirstLawCalculator.calculate_work_done (delta_u heat_added : PyVal) :
    Except PyError ℚ :=
  match FirstLawCalculator._validate_calculation_inputs
      delta_u heat_added .none with
  | Option.some e => .error e
  | Option.none => pySub heat_added delta_u

/-- A JSON value, the intermediate of the Python `json` module. -/
inductive JVal where
  | jint (n : Int)
  | jfloat (q : ℚ)
  | jstr (s : String)
  | jbool (b : Bool)
  | jnull
  | jarr (xs : List JVal)
  | jobj (kvs : List (String × JVal))

/-- Model of `json.load`'s conversion of a parsed JSON value to a Python value. -/
def jsonToPy : JVal → PyVal
  | .jint n => .int n
  | .jfloat q => .float q
  | .jstr s => .str s
  | .jbool b => .bool b
  | .jnull => .none
  | .jarr xs => .list (xs.attach.map (fun x => jsonToPy x.1))
  | .jobj kvs => .dict (kvs.attach.map (fun kv => (kv.1.1, jsonToPy kv.1.2)))
decreasing_by
  · have := List.sizeOf_lt_of_mem x.2
    simp only [JVal.jarr.sizeOf_spec]
    omega
  · have h1 := List.sizeOf_lt_of_mem kv.2
    have h2 : sizeOf kv.1.2 < sizeOf kv.1 := by
      obtain ⟨⟨k, v⟩, hm⟩ := kv
      simp
    simp only [JVal.jobj.sizeOf_spec]
    omega

/-- Model of `json.load`'s conversion of the fields of a parsed JSON object. -/
def jsonFieldsToPy (kvs : List (String × JVal)) : List (String × PyVal) :=
  kvs.map (fun kv => (kv.1, jsonToPy kv.2))

/-- Model of `json.dump`'s conversion of one `to_dict` entry to a JSON field
(`to_dict` only ever produces `float` values). -/
def dumpEntry : String × PyVal → String × JVal
  | (k, .float q) => (k, .jfloat q)
  | (k, .int n) => (k, .jint n)
  | (k, .bool b) => (k, .jbool b)
  | (k, .str s) => (k, .jstr s)
  | (k, _) => (k, .jnull)

/-- Abstract model of a file's contents at the `json` module boundary:
either a JSON object document (represented by its parsed fields — the SDK
only ever writes objects, and §6 fixes the file format to an object), or
text that is not valid JSON, carrying the decoder's message and byte
offset alongside the document text. -/
inductive FileData where
  | jsonFile (kvs : List (String × JVal))
  | badFile (doc : String) (msg : String) (pos : Nat)

/-- The file system: a partial map from paths to file contents. -/
def FS : Type := String → Option FileData

/-- Model of `save_system_to_json`: checks `system` is an instance, then `filename`
is a string, then writes `json.dump(system.to_dict(), f, indent=4)` to the
path, overwriting any existing file. -/
def save_system_to_json (system filename : PyVal) (fs : FS) :
    Except PyError FS :=
  match system with
  | .system s =>
    match filename with
    | .str p =>
        .ok (fun q => if q = p
          then Option.some (.jsonFile (s.to_dict.map dumpEntry))
          else fs q)
    | _ => .error (.typeError "Input 'filename' must be a string.")
  | _ => .error (.typeError
      "Input 'system' must be an instance of ThermodynamicSystem.")

/-- The re-wrapping of a `from_dict` failure in `load_system_from_json`:
`raise type(e)(f"Error parsing system data from {filename}: {e}")` keeps
the exception type and prefixes the message with the path context. -/
def wrapLoadError (p : String) (e : PyError) : PyError :=
  match e with
  | .valueError m =>
      .valueError ("Error parsing system data from " ++ p ++ ": " ++ m)
  | .typeError m =>
      .typeError ("Error parsing system data from " ++ p ++ ": " ++ m)
  | other => other

/-- Model of `load_system_from_json`: rejects non-string paths with `TypeError`;
re-raises a missing file as `FileNotFoundError` naming the path; re-raises
a JSON decode failure as `JSONDecodeError` with the path-context message
and the decoder's document text and offset; otherwise runs `from_dict` on
the parsed object and re-wraps its `ValueError`/`TypeError` with the path
context, preserving the exception type. -/
def load_system_from_json (filename : PyVal) (fs : FS) :
    Except PyError ThermodynamicSystem :=
  match filename with
  | .str p =>
    match fs p with
    | Option.none =>
        .error (.fileNotFoundError ("File not found: " ++ p))
    | Option.some (.badFile doc msg pos) =>
        .error (.jsonDecodeError
          ("Invalid JSON format in " ++ p ++ ": " ++ msg) doc pos)
    | Option.some (.jsonFile kvs) =>
      match ThermodynamicSystem.from_dict (jsonFieldsToPy kvs) with
      | .ok s => .ok s
      | .error e => .error (wrapLoadError p e)
  | _ => .error (.typeError "Input 'filename' must be a string.")

/-- Whether `sub` is a prefix of `l` (character lists). -/
def prefixOfL (sub l : List Char) : Bool :=
  match sub, l with
  | [], _ => true
  | _ :: _, [] => false
  | a :: as, b :: bs => a == b && prefixOfL as bs

/-- Whether `sub` occurs contiguously somewhere in `l`. -/
def hasSub (sub : List Char) : List Char → Bool
  | [] => prefixOfL sub []
  | c :: rest => prefixOfL sub (c :: rest) || hasSub sub rest

/-- Whether the string `msg` contains `sub` as a substring; used to state
that an error message identifies a field name or a runtime type. -/
def mentions (msg sub : String) : Bool :=
  hasSub sub.data msg.data

/-- A mutation of one entity field, as issued by client code: the argument
is an arbitrary runtime value. -/
inductive FieldOp where
  | setInternalEnergy (v : PyVal)
  | setHeatAdded (v : PyVal)
  | setWorkDone (v : PyVal)

/-- Run one setter call; a failed call leaves the state unchanged. -/
def applyOp (s : ThermodynamicSystem) (op : FieldOp) : ThermodynamicSystem :=
  match op with
  | .setInternalEnergy v => (s.set_internal_energy v).1
  | .setHeatAdded v => (s.set_heat_added v).1
  | .setWorkDone v => (s.set_work_done v).1

/-- Run a sequence of setter calls, successful or failed. -/
def applyOps (s : ThermodynamicSystem) : List FieldOp → ThermodynamicSystem
  | [] => s
  | op :: rest => applyOps (applyOp s op) rest

/-- Whether a runtime value is a `float` instance. -/
def PyVal.isFloat : PyVal → Bool
  | .float _ => true
  | _ => false

/-- Whether a runtime value is a `str` instance. -/
def PyVal.isStr : PyVal → Bool
  | .str _ => true
  | _ => false

/-- Whether a runtime value is a `ThermodynamicSystem` instance. -/
def PyVal.isSystem : PyVal → Bool
  | .system _ => true
  | _ => false

lemma checkCalcInput_of_isNumeric (name : String) (v : PyVal)
    (h : v.isNumeric = true) : checkCalcInput name v = Option.none := by
  cases v <;> simp_all [checkCalcInput, PyVal.isNumeric]

lemma calculate_delta_u_system (u q w : ℚ) :
    FirstLawCalculator.calculate_delta_u (.system ⟨u, q, w⟩) = .ok (q - w) := by
  simp [FirstLawCalculator.calculate_delta_u, ThermodynamicSystem.heat_added,
    ThermodynamicSystem.work_done, FirstLawCalculator._validate_calculation_inputs,
    checkCalcInput, pySub, PyVal.isNumeric, PyVal.toQ]

lemma calculate_heat_added_numeric (du w : PyVal)
    (hdu : du.isNumeric = true) (hw : w.isNumeric = true) :
    FirstLawCalculator.calculate_heat_added du w = .ok (du.toQ + w.toQ) := by
  cases du <;> cases w <;>
    simp_all [FirstLawCalculator.calculate_heat_added,
      FirstLawCalculator._validate_calculation_inputs, checkCalcInput,
      pyAdd, PyVal.isNumeric, PyVal.toQ]

lemma calculate_work_done_numeric (du q : PyVal)
    (hdu : du.isNumeric = true) (hq : q.isNumeric = true) :
    FirstLawCalculator.calculate_work_done du q = .ok (q.toQ - du.toQ) := by
  cases du <;> cases q <;>
    simp_all [FirstLawCalculator.calculate_work_done,
      FirstLawCalculator._validate_calculation_inputs, checkCalcInput,
      pySub, PyVal.isNumeric, PyVal.toQ]

/-- C1: the three calculator functions compute the algebraic rearrangements
of the First Law exactly: an entity constructed with `heat_added = q` and
`work_done = w` gives `calculate_delta_u = q - w`, and for numeric inputs
`calculate_heat_added du w = du + w` and `calculate_work_done du q = q - du`. -/
theorem calculators_compute_first_law :
    (∀ u q w : ℚ,
      FirstLawCalculator.calculate_delta_u (.system ⟨u, q, w⟩) = .ok (q - w))
    ∧ (∀ du w : PyVal, du.isNumeric = true → w.isNumeric = true →
      FirstLawCalculator.calculate_heat_added du w = .ok (du.toQ + w.toQ))
    ∧ (∀ du q : PyVal, du.isNumeric = true → q.isNumeric = true →
      FirstLawCalculator.calculate_work_done du q = .ok (q.toQ - du.toQ)) :=
  ⟨calculate_delta_u_system, calculate_heat_added_numeric,
    calculate_work_done_numeric⟩

/-- C1 witness at concrete inputs. -/
theorem calculators_compute_first_law_witness :
    FirstLawCalculator.calculate_heat_added (.int 3) (.float (1/2))
      = .ok ((3 : Int) + (1/2 : ℚ))
    ∧ FirstLawCalculator.calculate_work_done (.float (1/2)) (.int 5)
      = .ok ((5 : Int) - (1/2 : ℚ)) := by
  have h1 := calculators_compute_first_law.2.1 (.int 3) (.float (1/2)) rfl rfl
  have h2 := calculators_compute_first_law.2.2 (.float (1/2)) (.int 5) rfl rfl
  constructor
  · simpa [PyVal.toQ] using h1
  · simpa [PyVal.toQ] using h2

lemma init_numeric (a b c : PyVal) (ha : a.isNumeric = true)
    (hb : b.isNumeric = true) (hc : c.isNumeric = true) :
    ThermodynamicSystem.init a b c = .ok ⟨a.toQ, b.toQ, c.toQ⟩ := by
  simp only [ThermodynamicSystem.init, ThermodynamicSystem._validate_float,
    ha, hb, hc, Bool.not_true, Bool.false_eq_true, if_false, ite_false]
  rfl

/-- C4: `from_dict` checks `internal_energy`, `heat_added`, `work_done` in
that fixed order; the first absent key is reported with a `ValueError`
(`MissingKeyKind`) even when several are missing, the first present
non-numeric value with a `TypeError` (`TypeKind`) naming the key; only when
all three validate is the entity constructed, from those three values alone
(extra keys are ignored). -/
theorem from_dict_checks_keys_in_order :
    (∀ data : List (String × PyVal),
      List.lookup "internal_energy" data = Option.none →
      ThermodynamicSystem.from_dict data = .error (.valueError
        "Missing key 'internal_energy' in system data for deserialization."))
    ∧ (∀ (data : List (String × PyVal)) (a : PyVal),
      List.lookup "internal_energy" data = Option.some a →
      a.isNumeric = true →
      List.lookup "heat_added" data = Option.none →
      ThermodynamicSystem.from_dict data = .error (.valueError
        "Missing key 'heat_added' in system data for deserialization."))
    ∧ (∀ (data : List (String × PyVal)) (a b : PyVal),
      List.lookup "internal_energy" data = Option.some a →
      a.isNumeric = true →
      List.lookup "heat_added" data = Option.some b →
      b.isNumeric = true →
      List.lookup "work_done" data = Option.none →
      ThermodynamicSystem.from_dict data = .error (.valueError
        "Missing key 'work_done' in system data for deserialization."))
    ∧ (∀ (data : List (String × PyVal)) (a : PyVal),
      List.lookup "internal_energy" data = Option.some a →
      a.isNumeric = false →
      ThermodynamicSystem.from_dict data = .error (.typeError
        ("Value for 'internal_energy' must be a float, but got "
          ++ a.typeName ++ ".")))
    ∧ (∀ (data : List (String × PyVal)) (a b : PyVal),
      List.lookup "internal_energy" data = Option.some a →
      a.isNumeric = true →
      List.lookup "heat_added" data = Option.some b →
      b.isNumeric = false →
      ThermodynamicSystem.from_dict data = .error (.typeError
        ("Value for 'heat_added' must be a float, but got "
          ++ b.typeName ++ ".")))
    ∧ (∀ (data : List (String × PyVal)) (a b c : PyVal),
      List.lookup "internal_energy" data = Option.some a →
      a.isNumeric = true →
      List.lookup "heat_added" data = Option.some b →
      b.isNumeric = true →
      List.lookup "work_done" data = Option.some c →
      c.isNumeric = false →
      ThermodynamicSystem.from_dict data = .error (.typeError
        ("Value for 'work_done' must be a float, but got "
          ++ c.typeName ++ ".")))
    ∧ (∀ (data : List (String × PyVal)) (a b c : PyVal),
      List.lookup "internal_energy" data = Option.some a →
      a.isNumeric = true →
      List.lookup "heat_added" data = Option.some b →
      b.isNumeric = true →
      List.lookup "work_done" data = Option.some c →
      c.isNumeric = true →
      ThermodynamicSystem.from_dict data = .ok ⟨a.toQ, b.toQ, c.toQ⟩) := by
  refine ⟨fun data h1 => ?_, fun data a h1 h2 h3 => ?_,
    fun data a b h1 h2 h3 h4 h5 => ?_, fun data a h1 h2 => ?_,
    fun data a b h1 h2 h3 h4 => ?_, fun data a b c h1 h2 h3 h4 h5 h6 => ?_,
    fun data a b c h1 h2 h3 h4 h5 h6 => ?_⟩
  · simp [ThermodynamicSystem.from_dict, ThermodynamicSystem.checkKey, h1]
  · simp [ThermodynamicSystem.from_dict, ThermodynamicSystem.checkKey,
      h1, h2, h3]
  · simp [ThermodynamicSystem.from_dict, ThermodynamicSystem.checkKey,
      h1, h2, h3, h4, h5]
  · simp [ThermodynamicSystem.from_dict, ThermodynamicSystem.checkKey, h1, h2]
  · simp [ThermodynamicSystem.from_dict, ThermodynamicSystem.checkKey,
      h1, h2, h3, h4]
  · simp [ThermodynamicSystem.from_dict, ThermodynamicSystem.checkKey,
      h1, h2, h3, h4, h5, h6]
  · simp [ThermodynamicSystem.from_dict, ThermodynamicSystem.checkKey,
      ThermodynamicSystem.getKey, h1, h2, h3, h4, h5, h6,
      init_numeric a b c h2 h4 h6]

/-- C4 witness at concrete mappings. -/
theorem from_dict_checks_keys_in_order_witness :
    ThermodynamicSystem.from_dict [("work_done", .int 1)]
      = .error (.valueError
        "Missing key 'internal_energy' in system data for deserialization.")
    ∧ ThermodynamicSystem.from_dict
        [("internal_energy", .int 1), ("work_done", .int 3)]
      = .error (.valueError
        "Missing key 'heat_added' in system data for deserialization.")
    ∧ ThermodynamicSystem.from_dict
        [("internal_energy", .int 1), ("heat_added", .int 2)]
      = .error (.valueError
        "Missing key 'work_done' in system data for deserialization.")
    ∧ ThermodynamicSystem.from_dict
        [("internal_energy", .str "x"), ("heat_added", .list [])]
      = .error (.typeError
        "Value for 'internal_energy' must be a float, but got str.")
    ∧ ThermodynamicSystem.from_dict
        [("internal_energy", .int 1), ("heat_added", .list [])]
      = .error (.typeError
        "Value for 'heat_added' must be a float, but got list.")
    ∧ ThermodynamicSystem.from_dict
        [("internal_energy", .int 1), ("heat_added", .int 2),
         ("work_done", .none)]
      = .error (.typeError
        "Value for 'work_done' must be a float, but got NoneType.")
    ∧ ThermodynamicSystem.from_dict
        [("internal_energy", .int 1), ("heat_added", .float (1/2)),
         ("work_done", .bool true), ("extra", .str "ignored")]
      = .ok ⟨(PyVal.int 1).toQ, (PyVal.float (1/2)).toQ,
             (PyVal.bool true).toQ⟩ := by
  refine ⟨?_, ?_, ?_, ?_, ?_, ?_, ?_⟩
  · exact from_dict_checks_keys_in_order.1 _ rfl
  · exact from_dict_checks_keys_in_order.2.1 _ (.int 1) rfl rfl rfl
  · exact from_dict_checks_keys_in_order.2.2.1 _ (.int 1) (.int 2)
      rfl rfl rfl rfl rfl
  · exact from_dict_checks_keys_in_order.2.2.2.1 _ (.str "x") rfl rfl
  · exact from_dict_checks_keys_in_order.2.2.2.2.1 _ (.int 1) (.list [])
      rfl rfl rfl rfl
  · exact from_dict_checks_keys_in_order.2.2.2.2.2.1 _ (.int 1) (.int 2)
      .none rfl rfl rfl rfl rfl rfl
  · exact from_dict_checks_keys_in_order.2.2.2.2.2.2 _ (.int 1)
      (.float (1/2)) (.bool true) rfl rfl rfl rfl rfl rfl

lemma prefixOfL_append (l r : List Char) : prefixOfL l (l ++ r) = true := by
  induction l with
  | nil => simp [prefixOfL]
  | cons a as ih => simp [prefixOfL, ih]

lemma hasSub_of_prefixOfL (sub l : List Char) (h : prefixOfL sub l = true) :
    hasSub sub l = true := by
  cases l with
  | nil => simpa [hasSub] using h
  | cons c rest => simp [hasSub, h]

lemma hasSub_append_right (sub l r : List Char) (h : hasSub sub r = true) :
    hasSub sub (l ++ r) = true := by
  induction l with
  | nil => simpa using h
  | cons c cs ih => simp [hasSub, ih]

lemma hasSub_front (sub rest : List Char) : hasSub sub (sub ++ rest) = true :=
  hasSub_of_prefixOfL _ _ (prefixOfL_append sub rest)

lemma mentions_validationMsg_name (name : String) (v : PyVal) :
    mentions (validationMsg name v) name = true := by
  unfold validationMsg mentions
  rw [show (name ++ " must be a float or an integer, but got "
        ++ v.typeName ++ ".").data
      = name.data ++ (" must be a float or an integer, but got ".data
        ++ (v.typeName.data ++ ".".data)) from by simp [String.data_append]]
  exact hasSub_front _ _

lemma mentions_validationMsg_type (name : String) (v : PyVal) :
    mentions (validationMsg name v) v.typeName = true := by
  unfold validationMsg mentions
  rw [show (name ++ " must be a float or an integer, but got "
        ++ v.typeName ++ ".").data
      = (name.data ++ " must be a float or an integer, but got ".data)
        ++ (v.typeName.data ++ ".".data) from by simp [String.data_append]]
  exact hasSub_append_right _ _ _ (hasSub_front _ _)

/-- C6: after successful construction (which coerces integer and boolean
inputs via `float(value)`), and across any sequence of successful or failed
setter calls, each of the three fields reads back through its property as a
`float` instance — never a non-numeric value. -/
theorem fields_always_float (a b c : PyVal) (s : ThermodynamicSystem)
    (_h : ThermodynamicSystem.init a b c = .ok s) (ops : List FieldOp) :
    (applyOps s ops).internal_energy.isFloat = true
    ∧ (applyOps s ops).heat_added.isFloat = true
    ∧ (applyOps s ops).work_done.isFloat = true :=
  ⟨rfl, rfl, rfl⟩

/-- C6 witness: an entity built from integers, after a failed string
assignment and a successful boolean assignment. -/
theorem fields_always_float_witness :
    (applyOps ⟨((10 : Int) : ℚ), ((2 : Int) : ℚ), ((3 : Int) : ℚ)⟩
        [.setHeatAdded (.str "oops"), .setWorkDone (.bool true)]
      ).internal_energy.isFloat = true
    ∧ (applyOps ⟨((10 : Int) : ℚ), ((2 : Int) : ℚ), ((3 : Int) : ℚ)⟩
        [.setHeatAdded (.str "oops"), .setWorkDone (.bool true)]
      ).heat_added.isFloat = true
    ∧ (applyOps ⟨((10 : Int) : ℚ), ((2 : Int) : ℚ), ((3 : Int) : ℚ)⟩
        [.setHeatAdded (.str "oops"), .setWorkDone (.bool true)]
      ).work_done.isFloat = true :=
  fields_always_float (.int 10) (.int 2) (.int 3) _ rfl _

/-- C7: assigning a non-numeric value to any of the three field setters
fails with a `TypeError` naming that field, and the stored state is
returned unchanged. -/
theorem setters_fail_atomically (s : ThermodynamicSystem) (v : PyVal)
    (h : v.isNumeric = false) :
    s.set_internal_energy v
      = (s, Option.some (.typeError (validationMsg "internal_energy" v)))
    ∧ mentions (validationMsg "internal_energy" v) "internal_energy" = true
    ∧ s.set_heat_added v
      = (s, Option.some (.typeError (validationMsg "heat_added" v)))
    ∧ mentions (validationMsg "heat_added" v) "heat_added" = true
    ∧ s.set_work_done v
      = (s, Option.some (.typeError (validationMsg "work_done" v)))
    ∧ mentions (validationMsg "work_done" v) "work_done" = true := by
  refine ⟨?_, mentions_validationMsg_name _ _, ?_,
    mentions_validationMsg_name _ _, ?_, mentions_validationMsg_name _ _⟩
  · simp [ThermodynamicSystem.set_internal_energy,
      ThermodynamicSystem._validate_float, h]
  · simp [ThermodynamicSystem.set_heat_added,
      ThermodynamicSystem._validate_float, h]
  · simp [ThermodynamicSystem.set_work_done,
      ThermodynamicSystem._validate_float, h]

/-- C7 witness at a concrete state and a concrete non-numeric value. -/
theorem setters_fail_atomically_witness :
    ThermodynamicSystem.set_internal_energy ⟨1, 2, 3⟩ (.list [])
      = (⟨1, 2, 3⟩, Option.some (.typeError
          "internal_energy must be a float or an integer, but got list."))
    ∧ mentions "internal_energy must be a float or an integer, but got list."
        "internal_energy" = true
    ∧ ThermodynamicSystem.set_heat_added ⟨1, 2, 3⟩ (.list [])
      = (⟨1, 2, 3⟩, Option.some (.typeError
          "heat_added must be a float or an integer, but got list."))
    ∧ mentions "heat_added must be a float or an integer, but got list."
        "heat_added" = true
    ∧ ThermodynamicSystem.set_work_done ⟨1, 2, 3⟩ (.list [])
      = (⟨1, 2, 3⟩, Option.some (.typeError
          "work_done must be a float or an integer, but got list."))
    ∧ mentions "work_done must be a float or an integer, but got list."
        "work_done" = true :=
  setters_fail_atomically ⟨1, 2, 3⟩ (.list []) rfl

/-- C9: equality semantics of `__eq__`: an entity constructed from integers
equals one constructed from the equivalent floats; comparison with any
non-entity value returns `False` (the method is total — it never raises);
and two entities are equal exactly when all three fields compare equal. -/
theorem entity_equality_semantics :
    (∀ (a b c : Int) (s s' : ThermodynamicSystem),
      ThermodynamicSystem.init (.int a) (.int b) (.int c) = .ok s →
      ThermodynamicSystem.init (.float (a : ℚ)) (.float (b : ℚ))
        (.float (c : ℚ)) = .ok s' →
      s.eq (.system s') = true)
    ∧ (∀ (s : ThermodynamicSystem) (v : PyVal), v.isSystem = false →
      s.eq v = false)
    ∧ (∀ s o : ThermodynamicSystem,
      s.eq (.system o) = true
        ↔ (s._internal_energy = o._internal_energy
            ∧ s._heat_added = o._heat_added
            ∧ s._work_done = o._work_done)) := by
  refine ⟨fun a b c s s' h1 h2 => ?_, fun s v h => ?_, fun s o => ?_⟩
  · have e1 : s = ⟨(a : ℚ), (b : ℚ), (c : ℚ)⟩ := by
      have := init_numeric (.int a) (.int b) (.int c) rfl rfl rfl
      rw [this] at h1
      exact (Except.ok.inj h1).symm
    have e2 : s' = ⟨(a : ℚ), (b : ℚ), (c : ℚ)⟩ := by
      have := init_numeric (.float (a : ℚ)) (.float (b : ℚ)) (.float (c : ℚ))
        rfl rfl rfl
      rw [this] at h2
      exact (Except.ok.inj h2).symm
    subst e1; subst e2
    simp [ThermodynamicSystem.eq]
  · cases v <;> simp_all [ThermodynamicSystem.eq, PyVal.isSystem]
  · simp [ThermodynamicSystem.eq]

/-- C9 witness: `entity(1, 2, 3)` from integers equals `entity(1.0, 2.0,
3.0)` from floats; an entity never equals a string; equal fields decide
equality. -/
theorem entity_equality_semantics_witness :
    ThermodynamicSystem.eq ⟨((1 : Int) : ℚ), ((2 : Int) : ℚ), ((3 : Int) : ℚ)⟩
      (.system ⟨(((1 : Int) : ℚ) : ℚ), (((2 : Int) : ℚ) : ℚ),
        (((3 : Int) : ℚ) : ℚ)⟩) = true
    ∧ ThermodynamicSystem.eq ⟨1, 2, 3⟩ (.str "not a system") = false
    ∧ (ThermodynamicSystem.eq ⟨1, 2, 3⟩ (.system ⟨1, 2, 3⟩) = true
        ↔ ((1 : ℚ) = 1 ∧ (2 : ℚ) = 2 ∧ (3 : ℚ) = 3)) :=
  ⟨entity_equality_semantics.1 1 2 3 _ _ rfl rfl,
   entity_equality_semantics.2.1 ⟨1, 2, 3⟩ (.str "not a system") rfl,
   entity_equality_semantics.2.2 ⟨1, 2, 3⟩ ⟨1, 2, 3⟩⟩

/-- C10: booleans pass the numeric validation, because `bool` is a subtype
of `int` in Python: construction and every setter accept `True`/`False`
and store `1.0`/`0.0`, and the calculator argument validator accepts them
as well. -/
theorem booleans_pass_validation :
    (∀ b : Bool, (PyVal.bool b).isNumeric = true)
    ∧ (∀ (name : String) (b : Bool),
      ThermodynamicSystem._validate_float name (.bool b)
        = .ok (if b then 1 else 0))
    ∧ (ThermodynamicSystem.init (.bool true) (.bool false) (.bool true)
        = .ok ⟨1, 0, 1⟩)
    ∧ (∀ (s : ThermodynamicSystem) (b : Bool),
      s.set_internal_energy (.bool b)
        = ({ s with _internal_energy := if b then 1 else 0 }, Option.none)
      ∧ s.set_heat_added (.bool b)
        = ({ s with _heat_added := if b then 1 else 0 }, Option.none)
      ∧ s.set_work_done (.bool b)
        = ({ s with _work_done := if b then 1 else 0 }, Option.none))
    ∧ (∀ b : Bool, checkCalcInput "delta_u" (.bool b) = Option.none) := by
  refine ⟨fun b => rfl, fun name b => rfl, rfl, fun s b => ?_,
    fun b => rfl⟩
  refine ⟨?_, ?_, ?_⟩ <;>
    simp [ThermodynamicSystem.set_internal_energy,
      ThermodynamicSystem.set_heat_added, ThermodynamicSystem.set_work_done,
      ThermodynamicSystem._validate_float, PyVal.isNumeric, PyVal.toQ]

lemma save_system_to_json_ok (s : ThermodynamicSystem) (p : String) (fs : FS) :
    save_system_to_json (.system s) (.str p) fs
      = .ok (fun q => if q = p
          then Option.some (.jsonFile (s.to_dict.map dumpEntry))
          else fs q) := rfl

lemma load_saved_file (s : ThermodynamicSystem) (p : String) (fs : FS) :
    load_system_from_json (.str p)
      (fun q => if q = p
        then Option.some (.jsonFile (s.to_dict.map dumpEntry))
        else fs q)
      = .ok s := by
  have hj : jsonFieldsToPy (s.to_dict.map dumpEntry)
      = [("internal_energy", .float s._internal_energy),
         ("heat_added", .float s._heat_added),
         ("work_done", .float s._work_done)] := by
    simp [jsonFieldsToPy, ThermodynamicSystem.to_dict,
      ThermodynamicSystem.internal_energy, ThermodynamicSystem.heat_added,
      ThermodynamicSystem.work_done, dumpEntry, jsonToPy]
  have hfd : ThermodynamicSystem.from_dict
      (jsonFieldsToPy (s.to_dict.map dumpEntry)) = .ok s := by
    rw [hj]
    rfl
  simp [load_system_from_json, hfd]

lemma prefixOfL_refl (l : List Char) : prefixOfL l l = true := by
  simpa using prefixOfL_append l []

lemma hasSub_self (l : List Char) : hasSub l l = true :=
  hasSub_of_prefixOfL _ _ (prefixOfL_refl l)

/-- C2: JSON round trip: saving any entity and loading the same path back —
with no intervening modification of the file — yields an entity equal to
the original under the entity's own `__eq__`. -/
theorem save_load_round_trip (s : ThermodynamicSystem) (p : String)
    (fs fs' : FS)
    (h : save_system_to_json (.system s) (.str p) fs = .ok fs') :
    ∃ s', load_system_from_json (.str p) fs' = .ok s'
      ∧ s'.eq (.system s) = true := by
  have hfs : fs' = fun q => if q = p
      then Option.some (.jsonFile (s.to_dict.map dumpEntry)) else fs q := by
    have h0 := save_system_to_json_ok s p fs
    rw [h0] at h
    exact (Except.ok.inj h).symm
  subst hfs
  exact ⟨s, load_saved_file s p fs, by simp [ThermodynamicSystem.eq]⟩

/-- C2 witness: an entity with zero, negative and fractional fields,
saved to an empty file system and loaded back. -/
theorem save_load_round_trip_witness :
    ∃ s', load_system_from_json (.str "system.json")
        (fun q => if q = "system.json"
          then Option.some (.jsonFile
            ((⟨0, -2, 1/2⟩ : ThermodynamicSystem).to_dict.map dumpEntry))
          else (fun _ => Option.none : FS) q) = .ok s'
      ∧ s'.eq (.system ⟨0, -2, 1/2⟩) = true :=
  save_load_round_trip ⟨0, -2, 1/2⟩ "system.json" (fun _ => Option.none) _ rfl

/-- C5: the failure taxonomy of `load_system_from_json`: `TypeError` for a
non-string path; `FileNotFoundError` whose message includes the literal
path for a missing file; `JSONDecodeError` carrying the decoder's message,
document text and byte offset for invalid JSON; and `from_dict` failures
re-raised with the path-contextual message under the original error kind. -/
theorem load_failure_taxonomy :
    (∀ (v : PyVal) (fs : FS), v.isStr = false →
      load_system_from_json v fs
        = .error (.typeError "Input 'filename' must be a string."))
    ∧ (∀ (p : String) (fs : FS), fs p = Option.none →
      load_system_from_json (.str p) fs
        = .error (.fileNotFoundError ("File not found: " ++ p))
      ∧ mentions ("File not found: " ++ p) p = true)
    ∧ (∀ (p doc msg : String) (pos : Nat) (fs : FS),
      fs p = Option.some (.badFile doc msg pos) →
      load_system_from_json (.str p) fs
        = .error (.jsonDecodeError
          ("Invalid JSON format in " ++ p ++ ": " ++ msg) doc pos))
    ∧ (∀ (p m : String) (fs : FS) (kvs : List (String × JVal)),
      fs p = Option.some (.jsonFile kvs) →
      ThermodynamicSystem.from_dict (jsonFieldsToPy kvs)
        = .error (.valueError m) →
      load_system_from_json (.str p) fs
        = .error (.valueError
          ("Error parsing system data from " ++ p ++ ": " ++ m)))
    ∧ (∀ (p m : String) (fs : FS) (kvs : List (String × JVal)),
      fs p = Option.some (.jsonFile kvs) →
      ThermodynamicSystem.from_dict (jsonFieldsToPy kvs)
        = .error (.typeError m) →
      load_system_from_json (.str p) fs
        = .error (.typeError
          ("Error parsing system data from " ++ p ++ ": " ++ m))) := by
  refine ⟨fun v fs h => ?_, fun p fs h => ⟨?_, ?_⟩,
    fun p doc msg pos fs h => ?_, fun p m fs kvs h1 h2 => ?_,
    fun p m fs kvs h1 h2 => ?_⟩
  · cases v <;> simp_all [load_system_from_json, PyVal.isStr]
  · simp [load_system_from_json, h]
  · unfold mentions
    rw [String.data_append]
    exact hasSub_append_right _ _ _ (hasSub_self _)
  · simp [load_system_from_json, h]
  · simp [load_system_from_json, h1, h2, wrapLoadError]
  · simp [load_system_from_json, h1, h2, wrapLoadError]

/-- C5 witness: each failure shape at a concrete path and file system. -/
theorem load_failure_taxonomy_witness :
    load_system_from_json .none (fun _ => Option.none)
      = .error (.typeError "Input 'filename' must be a string.")
    ∧ load_system_from_json (.str "missing.json") (fun _ => Option.none)
      = .error (.fileNotFoundError "File not found: missing.json")
    ∧ load_system_from_json (.str "bad.json")
        (fun q => if q = "bad.json"
          then Option.some (.badFile "\x7boops" "Expecting value" 1)
          else Option.none)
      = .error (.jsonDecodeError
          "Invalid JSON format in bad.json: Expecting value" "\x7boops" 1)
    ∧ load_system_from_json (.str "partial.json")
        (fun q => if q = "partial.json"
          then Option.some (.jsonFile [("internal_energy", .jfloat 1)])
          else Option.none)
      = .error (.valueError
          ("Error parsing system data from partial.json: "
            ++ "Missing key 'heat_added' in system data for deserialization."))
    ∧ load_system_from_json (.str "typed.json")
        (fun q => if q = "typed.json"
          then Option.some (.jsonFile [("internal_energy", .jstr "x")])
          else Option.none)
      = .error (.typeError
          ("Error parsing system data from typed.json: "
            ++ "Value for 'internal_energy' must be a float, but got str."))
      := by
  refine ⟨?_, ?_, ?_, ?_, ?_⟩
  · exact load_failure_taxonomy.1 .none (fun _ => Option.none) rfl
  · exact (load_failure_taxonomy.2.1 "missing.json"
      (fun _ => Option.none) rfl).1
  · exact load_failure_taxonomy.2.2.1 "bad.json" "\x7boops"
      "Expecting value" 1 _ (by simp)
  · refine load_failure_taxonomy.2.2.2.1 "partial.json"
      "Missing key 'heat_added' in system data for deserialization."
      _ [("internal_energy", .jfloat 1)] (by simp) ?_
    have hk : jsonFieldsToPy [("internal_energy", JVal.jfloat 1)]
        = [("internal_energy", PyVal.float 1)] := by
      simp [jsonFieldsToPy, jsonToPy]
    rw [hk]
    rfl
  · refine load_failure_taxonomy.2.2.2.2 "typed.json"
      "Value for 'internal_energy' must be a float, but got str."
      _ [("internal_energy", .jstr "x")] (by simp) ?_
    have hk : jsonFieldsToPy [("internal_energy", JVal.jstr "x")]
        = [("internal_energy", PyVal.str "x")] := by
      simp [jsonFieldsToPy, jsonToPy]
    rw [hk]
    rfl

lemma mentions_checkKey_key (key : String) (v : PyVal) :
    mentions ("Value for '" ++ key ++ "' must be a float, but got "
      ++ v.typeName ++ ".") key = true := by
  unfold mentions
  rw [show ("Value for '" ++ key ++ "' must be a float, but got "
        ++ v.typeName ++ ".").data
      = "Value for '".data ++ (key.data
        ++ ("' must be a float, but got ".data
          ++ (v.typeName.data ++ ".".data))) from by simp [String.data_append]]
  exact hasSub_append_right _ _ _ (hasSub_front _ _)

lemma mentions_checkKey_type (key : String) (v : PyVal) :
    mentions ("Value for '" ++ key ++ "' must be a float, but got "
      ++ v.typeName ++ ".") v.typeName = true := by
  unfold mentions
  rw [show ("Value for '" ++ key ++ "' must be a float, but got "
        ++ v.typeName ++ ".").data
      = "Value for '".data ++ (key.data
        ++ ("' must be a float, but got ".data
          ++ (v.typeName.data ++ ".".data))) from by simp [String.data_append]]
  exact hasSub_append_right _ _ _ (hasSub_append_right _ _ _
    (hasSub_append_right _ _ _ (hasSub_front _ _)))

/-- C8 counterexample: the `TypeError` raised by `calculate_delta_u` for a
string argument carries the fixed message
`"Input must be an instance of ThermodynamicSystem."`, which does not
contain the offending value's runtime type name `str` — refuting that every
TypeKind failure identifies the actual runtime type observed. -/
theorem typeKind_message_lacks_type_counterexample :
    FirstLawCalculator.calculate_delta_u (.str "x")
      = .error (.typeError "Input must be an instance of ThermodynamicSystem.")
    ∧ mentions "Input must be an instance of ThermodynamicSystem." "str"
      = false :=
  ⟨rfl, by decide⟩

/-- C8 amended: TypeKind failures raised by numeric validation —
construction, the setters, `from_dict`'s value checks and the calculators'
argument validator — name both the offending field/parameter and the actual
runtime type; the instance checks of `calculate_delta_u` and
`save_system_to_json` and the path checks of save/load instead raise fixed
messages that name the parameter but not the value's runtime type. -/
theorem typeKind_messages_amended :
    (∀ v : PyVal, v.isNumeric = false →
      ∀ name ∈ (["internal_energy", "heat_added", "work_done",
        "delta_u"] : List String),
      ThermodynamicSystem._validate_float name v
        = .error (.typeError (validationMsg name v))
      ∧ mentions (validationMsg name v) name = true
      ∧ mentions (validationMsg name v) v.typeName = true)
    ∧ (∀ (name : String) (v : PyVal), v.isNumeric = false →
      v ≠ PyVal.none →
      checkCalcInput name v
        = Option.some (.typeError (validationMsg name v)))
    ∧ (∀ (key : String) (v : PyVal), v.isNumeric = false →
      ThermodynamicSystem.checkKey [(key, v)] key
        = Option.some (.typeError
          ("Value for '" ++ key ++ "' must be a float, but got "
            ++ v.typeName ++ "."))
      ∧ mentions ("Value for '" ++ key ++ "' must be a float, but got "
          ++ v.typeName ++ ".") key = true
      ∧ mentions ("Value for '" ++ key ++ "' must be a float, but got "
          ++ v.typeName ++ ".") v.typeName = true)
    ∧ (∀ v : PyVal, v.isSystem = false →
      FirstLawCalculator.calculate_delta_u v
        = .error (.typeError
          "Input must be an instance of ThermodynamicSystem."))
    ∧ (∀ (v f : PyVal) (fs : FS), v.isSystem = false →
      save_system_to_json v f fs
        = .error (.typeError
          "Input 'system' must be an instance of ThermodynamicSystem."))
    ∧ (∀ (s : ThermodynamicSystem) (f : PyVal) (fs : FS), f.isStr = false →
      save_system_to_json (.system s) f fs
        = .error (.typeError "Input 'filename' must be a string."))
    ∧ (∀ (v : PyVal) (fs : FS), v.isStr = false →
      load_system_from_json v fs
        = .error (.typeError "Input 'filename' must be a string.")) := by
  refine ⟨fun v hv name _hname => ?_, fun name v hv hne => ?_,
    fun key v hv => ?_, fun v hv => ?_, fun v f fs hv => ?_,
    fun s f fs hf => ?_, fun v fs hv => ?_⟩
  · exact ⟨by simp [ThermodynamicSystem._validate_float, hv],
      mentions_validationMsg_name name v, mentions_validationMsg_type name v⟩
  · cases v <;> simp_all [checkCalcInput, validationMsg]
  · refine ⟨?_, mentions_checkKey_key key v, mentions_checkKey_type key v⟩
    simp [ThermodynamicSystem.checkKey, hv]
  · cases v <;> simp_all [FirstLawCalculator.calculate_delta_u,
      PyVal.isSystem]
  · cases v <;> simp_all [save_system_to_json, PyVal.isSystem]
  · cases f <;> simp_all [save_system_to_json, PyVal.isStr]
  · cases v <;> simp_all [load_system_from_json, PyVal.isStr]

/-- C8 amended witness: each branch at a concrete input. -/
theorem typeKind_messages_amended_witness :
    (ThermodynamicSystem._validate_float "heat_added" (.dict [])
        = .error (.typeError
          "heat_added must be a float or an integer, but got dict.")
      ∧ mentions "heat_added must be a float or an integer, but got dict."
          "heat_added" = true
      ∧ mentions "heat_added must be a float or an integer, but got dict."
          "dict" = true)
    ∧ checkCalcInput "delta_u" (.str "q")
      = Option.some (.typeError
          "delta_u must be a float or an integer, but got str.")
    ∧ (ThermodynamicSystem.checkKey [("work_done", .none)] "work_done"
        = Option.some (.typeError
          "Value for 'work_done' must be a float, but got NoneType.")
      ∧ mentions "Value for 'work_done' must be a float, but got NoneType."
          "work_done" = true
      ∧ mentions "Value for 'work_done' must be a float, but got NoneType."
          "NoneType" = true)
    ∧ FirstLawCalculator.calculate_delta_u (.int 7)
      = .error (.typeError
          "Input must be an instance of ThermodynamicSystem.")
    ∧ save_system_to_json (.float 1) (.str "out.json") (fun _ => Option.none)
      = .error (.typeError
          "Input 'system' must be an instance of ThermodynamicSystem.")
    ∧ save_system_to_json (.system ⟨1, 2, 3⟩) .none (fun _ => Option.none)
      = .error (.typeError "Input 'filename' must be a string.")
    ∧ load_system_from_json (.bool true) (fun _ => Option.none)
      = .error (.typeError "Input 'filename' must be a string.") :=
  ⟨typeKind_messages_amended.1 (.dict []) rfl "heat_added" (by simp),
   typeKind_messages_amended.2.1 "delta_u" (.str "q") rfl
     (fun h => nomatch h),
   typeKind_messages_amended.2.2.1 "work_done" .none rfl,
   typeKind_messages_amended.2.2.2.1 (.int 7) rfl,
   typeKind_messages_amended.2.2.2.2.1 (.float 1) (.str "out.json")
     (fun _ => Option.none) rfl,
   typeKind_messages_amended.2.2.2.2.2.1 ⟨1, 2, 3⟩ .none
     (fun _ => Option.none) rfl,
   typeKind_messages_amended.2.2.2.2.2.2 (.bool true)
     (fun _ => Option.none) rfl⟩

/-- Round a rational to the nearest integer, ties to even — the rounding
of IEEE-754 binary64 arithmetic. -/
def rne (x : ℚ) : ℤ :=
  if x - ⌊x⌋ < 1/2 then ⌊x⌋
  else if 1/2 < x - ⌊x⌋ then ⌊x⌋ + 1
  else if Even ⌊x⌋ then ⌊x⌋ else ⌊x⌋ + 1

/-- The exponent of the unit in the last place of a binary64 number with
value `q`: its significand spans 53 bits below `Int.log 2 |q|`. -/
def ulpExp (q : ℚ) : ℤ := Int.log 2 |q| - 52

/-- Round an exact rational to the nearest IEEE-754 binary64 value (round
to nearest, ties to even).  Normal range only: overflow and subnormals,
which no claim's inputs reach, are not modelled. -/
def roundF (q : ℚ) : ℚ :=
  if q = 0 then 0 else (rne (q / 2 ^ ulpExp q) : ℚ) * 2 ^ ulpExp q

/-- Python float addition (IEEE-754 binary64): the exact sum, rounded. -/
def fadd (a b : ℚ) : ℚ := roundF (a + b)

/-- Python float subtraction (IEEE-754 binary64): the exact difference,
rounded. -/
def fsub (a b : ℚ) : ℚ := roundF (a - b)

/-- Model of `FirstLawCalculator.calculate_heat_added` on float arguments
under the source's IEEE-754 binary64 arithmetic: `delta_u + work_done`
rounds to nearest.  (The validator accepts every float, so it is elided;
`calculate_heat_added` above captures the same source line under exact
arithmetic.) -/
def FirstLawCalculator.calculate_heat_added_f64 (delta_u work_done : ℚ) :
    ℚ :=
  fadd delta_u work_done

/-- Model of `FirstLawCalculator.calculate_delta_u` on an entity holding
binary64 floats: `system.heat_added - system.work_done` rounds to
nearest. -/
def FirstLawCalculator.calculate_delta_u_f64 (system : ThermodynamicSystem) :
    ℚ :=
  fsub system._heat_added system._work_done

/-- Model of `FirstLawCalculator.calculate_work_done` on float arguments
under IEEE-754 binary64 arithmetic: `heat_added - delta_u` rounds to
nearest. -/
def FirstLawCalculator.calculate_work_done_f64 (delta_u heat_added : ℚ) :
    ℚ :=
  fsub heat_added delta_u

lemma int_log_unique (r : ℚ) (z : ℤ) (h0 : 0 < r)
    (h1 : (2 : ℚ) ^ z ≤ r) (h2 : r < (2 : ℚ) ^ (z + 1)) :
    Int.log 2 r = z := by
  have hb : (1 : ℕ) < 2 := one_lt_two
  have hle : z ≤ Int.log 2 r := by
    rw [← Int.zpow_le_iff_le_log hb h0]
    exact_mod_cast h1
  have hlt : Int.log 2 r < z + 1 := by
    rw [← Int.lt_zpow_iff_log_lt hb h0]
    exact_mod_cast h2
  omega

lemma rne_of_lt_half (x : ℚ) (n : ℤ) (h1 : (n : ℚ) ≤ x)
    (h2 : x < (n : ℚ) + 1/2) : rne x = n := by
  have hf : ⌊x⌋ = n := by
    rw [Int.floor_eq_iff]
    · exact ⟨h1, by linarith⟩
  unfold rne
  rw [hf, if_pos (by linarith : x - (n : ℚ) < 1/2)]

lemma rne_intCast (n : ℤ) : rne ((n : ℚ)) = n :=
  rne_of_lt_half _ n (le_refl _) (by linarith)

lemma roundF_eval (q : ℚ) (e n : ℤ) (hq : q ≠ 0)
    (hlog : Int.log 2 |q| = e)
    (hrne : rne (q / 2 ^ (e - 52)) = n) :
    roundF q = (n : ℚ) * 2 ^ (e - 52) := by
  unfold roundF ulpExp
  rw [if_neg hq, hlog, hrne]

lemma roundF_exact (q : ℚ) (e m : ℤ) (hq : q ≠ 0)
    (hlog : Int.log 2 |q| = e)
    (hdiv : q / 2 ^ (e - 52) = (m : ℚ)) :
    roundF q = q := by
  have h1 : roundF q = (m : ℚ) * 2 ^ (e - 52) :=
    roundF_eval q e m hq hlog (by rw [hdiv, rne_intCast])
  rw [h1, ← hdiv, div_mul_cancel₀]
  exact zpow_ne_zero _ two_ne_zero

lemma zpow_neg_nat (n : ℕ) : (2 : ℚ) ^ (-(n : ℤ)) = ((2 : ℚ) ^ n)⁻¹ := by
  rw [zpow_neg, zpow_natCast]

lemma fadd_one_absorbs : fadd 1 (3 / 2 ^ 55) = 1 := by
  unfold fadd
  have hq : (1 + 3 / 2 ^ 55 : ℚ) ≠ 0 := by positivity
  have hlog : Int.log 2 |(1 + 3 / 2 ^ 55 : ℚ)| = 0 := by
    rw [abs_of_pos (by positivity)]
    apply int_log_unique _ _ (by positivity)
    · rw [zpow_zero]
      norm_num
    · rw [zero_add, zpow_one]
      norm_num
  have hdiv : (1 + 3 / 2 ^ 55 : ℚ) / 2 ^ ((0 : ℤ) - 52)
      = (1 + 3 / 2 ^ 55) * 2 ^ (52 : ℕ) := by
    rw [show ((0 : ℤ) - 52) = -((52 : ℕ) : ℤ) from by norm_num,
      zpow_neg_nat, div_eq_mul_inv, inv_inv]
  have hrne : rne ((1 + 3 / 2 ^ 55 : ℚ) / 2 ^ ((0 : ℤ) - 52)) = 2 ^ 52 := by
    rw [hdiv]
    apply rne_of_lt_half
    · push_cast
      norm_num
    · push_cast
      norm_num
  rw [roundF_eval _ 0 (2 ^ 52) hq hlog hrne,
    show ((0 : ℤ) - 52) = -((52 : ℕ) : ℤ) from by norm_num, zpow_neg_nat]
  push_cast
  norm_num

lemma fsub_one_small : fsub 1 (3 / 2 ^ 55) = 1 - 1 / 2 ^ 53 := by
  unfold fsub
  have hq : (1 - 3 / 2 ^ 55 : ℚ) ≠ 0 := by norm_num
  have hlog : Int.log 2 |(1 - 3 / 2 ^ 55 : ℚ)| = -1 := by
    rw [abs_of_pos (by norm_num)]
    apply int_log_unique _ _ (by norm_num)
    · rw [show (-1 : ℤ) = -((1 : ℕ) : ℤ) from by norm_num, zpow_neg_nat]
      norm_num
    · rw [show ((-1 : ℤ) + 1) = 0 from by norm_num, zpow_zero]
      norm_num
  have hdiv : (1 - 3 / 2 ^ 55 : ℚ) / 2 ^ ((-1 : ℤ) - 52)
      = (1 - 3 / 2 ^ 55) * 2 ^ (53 : ℕ) := by
    rw [show ((-1 : ℤ) - 52) = -((53 : ℕ) : ℤ) from by norm_num,
      zpow_neg_nat, div_eq_mul_inv, inv_inv]
  have hrne : rne ((1 - 3 / 2 ^ 55 : ℚ) / 2 ^ ((-1 : ℤ) - 52))
      = 2 ^ 53 - 1 := by
    rw [hdiv]
    apply rne_of_lt_half
    · push_cast
      norm_num
    · push_cast
      norm_num
  rw [roundF_eval _ (-1) (2 ^ 53 - 1) hq hlog hrne,
    show ((-1 : ℤ) - 52) = -((53 : ℕ) : ℤ) from by norm_num, zpow_neg_nat]
  push_cast
  norm_num

lemma fsub_one_one : fsub 1 1 = 0 := by
  simp [fsub, roundF]

lemma roundF_three : roundF 3 = 3 := by
  apply roundF_exact _ 1 (3 * 2 ^ 51) (by norm_num)
  · rw [show |(3 : ℚ)| = 3 from by norm_num]
    apply int_log_unique _ _ (by norm_num)
    · rw [zpow_one]
      norm_num
    · rw [show ((1 : ℤ) + 1) = ((2 : ℕ) : ℤ) from by norm_num, zpow_natCast]
      norm_num
  · rw [show ((1 : ℤ) - 52) = -((51 : ℕ) : ℤ) from by norm_num,
      zpow_neg_nat, div_eq_mul_inv, inv_inv]
    push_cast
    norm_num

lemma roundF_four : roundF 4 = 4 := by
  apply roundF_exact _ 2 (2 ^ 52) (by norm_num)
  · rw [show |(4 : ℚ)| = 4 from by norm_num]
    apply int_log_unique _ _ (by norm_num)
    · rw [show ((2 : ℤ)) = ((2 : ℕ) : ℤ) from by norm_num, zpow_natCast]
      norm_num
    · rw [show ((2 : ℤ) + 1) = ((3 : ℕ) : ℤ) from by norm_num, zpow_natCast]
      norm_num
  · rw [show ((2 : ℤ) - 52) = -((50 : ℕ) : ℤ) from by norm_num,
      zpow_neg_nat, div_eq_mul_inv, inv_inv]
    push_cast
    norm_num

lemma roundF_seven : roundF 7 = 7 := by
  apply roundF_exact _ 2 (7 * 2 ^ 50) (by norm_num)
  · rw [show |(7 : ℚ)| = 7 from by norm_num]
    apply int_log_unique _ _ (by norm_num)
    · rw [show ((2 : ℤ)) = ((2 : ℕ) : ℤ) from by norm_num, zpow_natCast]
      norm_num
    · rw [show ((2 : ℤ) + 1) = ((3 : ℕ) : ℤ) from by norm_num, zpow_natCast]
      norm_num
  · rw [show ((2 : ℤ) - 52) = -((50 : ℕ) : ℤ) from by norm_num,
      zpow_neg_nat, div_eq_mul_inv, inv_inv]
    push_cast
    norm_num

/-- C3 counterexample: under the source's IEEE-754 binary64 arithmetic the
universal inversion fails.  At `du = 1.0` and `w = 3·2⁻⁵⁵` (a number
exactly representable as a double), `calculate_heat_added` absorbs `w` and
returns `1.0`; feeding that back, `calculate_delta_u` returns
`1 - 2⁻⁵³ ≠ du` and `calculate_work_done` returns `0 ≠ w`. -/
theorem calculators_invert_counterexample :
    FirstLawCalculator.calculate_heat_added_f64 1 (3 / 2 ^ 55) = 1
    ∧ FirstLawCalculator.calculate_delta_u_f64
        ⟨0, FirstLawCalculator.calculate_heat_added_f64 1 (3 / 2 ^ 55),
          3 / 2 ^ 55⟩ = 1 - 1 / 2 ^ 53
    ∧ (1 - 1 / 2 ^ 53 : ℚ) ≠ 1
    ∧ FirstLawCalculator.calculate_work_done_f64 1
        (FirstLawCalculator.calculate_heat_added_f64 1 (3 / 2 ^ 55)) = 0
    ∧ (0 : ℚ) ≠ 3 / 2 ^ 55 := by
  have habs : FirstLawCalculator.calculate_heat_added_f64 1 (3 / 2 ^ 55)
      = 1 := fadd_one_absorbs
  refine ⟨habs, ?_, by norm_num, ?_, by norm_num⟩
  · show fsub (FirstLawCalculator.calculate_heat_added_f64 1 (3 / 2 ^ 55))
      (3 / 2 ^ 55) = 1 - 1 / 2 ^ 53
    rw [habs]
    exact fsub_one_small
  · show fsub (FirstLawCalculator.calculate_heat_added_f64 1 (3 / 2 ^ 55))
      1 = 0
    rw [habs]
    exact fsub_one_one

/-- C3 amended: for inputs `du`, `w` that are exactly representable as
binary64 floats and whose sum incurs no rounding in
`calculate_heat_added` — as for the spec's untruncated test-scenario
inputs — the calculator functions invert each other exactly:
`calculate_delta_u` on an entity with `heat_added = calculate_heat_added
du w` and `work_done = w` returns `du`, and `calculate_work_done du
(calculate_heat_added du w)` returns `w`. -/
theorem calculators_invert_amended (du w u : ℚ)
    (hdu : roundF du = du) (hw : roundF w = w)
    (hexact : FirstLawCalculator.calculate_heat_added_f64 du w = du + w) :
    FirstLawCalculator.calculate_delta_u_f64
      ⟨u, FirstLawCalculator.calculate_heat_added_f64 du w, w⟩ = du
    ∧ FirstLawCalculator.calculate_work_done_f64 du
      (FirstLawCalculator.calculate_heat_added_f64 du w) = w := by
  constructor
  · show fsub (FirstLawCalculator.calculate_heat_added_f64 du w) w = du
    rw [hexact]
    unfold fsub
    rw [add_sub_cancel_right]
    exact hdu
  · show fsub (FirstLawCalculator.calculate_heat_added_f64 du w) du = w
    rw [hexact]
    unfold fsub
    rw [add_sub_cancel_left]
    exact hw

/-- C3 amended witness at `du = 3`, `w = 4`: both representable, and
`3 + 4 = 7` is exact in binary64. -/
theorem calculators_invert_amended_witness :
    FirstLawCalculator.calculate_delta_u_f64
      ⟨0, FirstLawCalculator.calculate_heat_added_f64 3 4, 4⟩ = 3
    ∧ FirstLawCalculator.calculate_work_done_f64 3
      (FirstLawCalculator.calculate_heat_added_f64 3 4) = 4 :=
  calculators_invert_amended 3 4 0 roundF_three roundF_four
    (by unfold FirstLawCalculator.calculate_heat_added_f64 fadd
        rw [show (3 : ℚ) + 4 = 7 from by norm_num, roundF_seven])
